import Mathlib

/-!
Shallow embedding of the touch-reaction subsystem of
sprite-who-codes/claudron-dashboard (src/server.js).

Conventions of the embedding:
- state.json is the `Presence` record (mood/status/room/location); file reads
  and writes become explicit state passing on `ServerState`.
- JS numbers used as coordinates are embedded as exact rationals; the source
  compares Math.sqrt(dx*dx+dy*dy) against thresholds, and sqrt is strictly
  monotone on nonnegative reals, so every comparison is embedded as the
  equivalent comparison of squared distances.
- Date.now() timestamps are Nat milliseconds. JS computes now - lastWake > 30000
  with real subtraction; for the monotone clocks that occur at runtime
  (now >= lastWake) Nat subtraction agrees, and when now < lastWake both
  the JS test (negative number) and the Nat test (truncation to 0) are false.
- setTimeout callbacks are reified as `PendingRevert` data; `fireRevert`
  executes the pending callback exactly as the source closures do.
  clearTimeout followed by setTimeout is replacing the `reactionRevertTimer`
  field.
- JS falsiness of the empty string is modelled explicitly where the source
  relies on it (body field validation, state.room fallback, cache entries).
- Math.floor(Math.random() * TOUCH_REACTIONS.length) is modelled by an
  explicit index argument `rand`, reduced mod the pool length.
-/

/-- The durable presence record stored in state.json. -/
structure Presence where
  mood : String
  status : String
  room : String
  location : String
deriving Repr, DecidableEq

/-- A mood/status pair, used for the saved pre-reaction baseline and for
entries of the reaction pool. -/
structure MoodStatus where
  mood : String
  status : String
deriving Repr, DecidableEq

/-- The comparison a scheduled revert callback performs against the current
state.json before restoring. The double-click and spatial callbacks compare
only the status field against the value they wrote; the single-tap and
identify callbacks compare both mood and status. -/
inductive RevertCheck where
  | statusOnly (sentinel : String)
  | moodAndStatus (mood status : String)
deriving Repr, DecidableEq

/-- A reified setTimeout callback for reverting a touch reaction.
`clearsPreReaction` records whether the source callback begins by setting
the global preReactionState to null (the single-tap and identify callbacks
do; the double-click and spatial callbacks do not, because those branches
null it at scheduling time instead). -/
structure PendingRevert where
  delayMs : Nat
  check : RevertCheck
  restoreTo : MoodStatus
  clearsPreReaction : Bool
deriving Repr, DecidableEq

/-- One object of the pre-generated spatial map: a position in the unit
square plus a human-readable description. -/
structure Landmark where
  x : ℚ
  y : ℚ
  description : String
deriving Repr, DecidableEq

/-- spatial-map.json: room name to list of landmarks. -/
abbrev SpatialMap := List (String × List Landmark)

/-- spatial-cache.json: room name to association of grid-cell key strings
to agent-written descriptions. -/
abbrev SpatialCache := List (String × List (String × String))

/-- One line of touch-log.jsonl / pending-touches.jsonl (the fields the
touch route writes). `who` is present for a known address, absent
(`none`, the source writes `unknown: true`) otherwise. -/
structure TouchLogEntry where
  ttype : String
  x : ℚ
  y : ℚ
  onSprite : Bool
  ip : String
  who : Option String
deriving Repr, DecidableEq

/-- An entry of the append-only touch log: either a raw touch event or an
identification event logged by POST /api/identify. -/
inductive LogEvent where
  | touch (e : TouchLogEntry)
  | identified (ip who emoji : String)
deriving Repr, DecidableEq

/-- The process-wide mutable state the touch subsystem reads and writes:
state.json, the two module-level globals preReactionState and
reactionRevertTimer, the touchWakeThrottle map, known-ips.json,
pending-touches.jsonl, touch-log.jsonl, spatial-cache.json and
spatial-map.json. -/
structure ServerState where
  stateFile : Presence
  preReactionState : Option MoodStatus
  reactionRevertTimer : Option PendingRevert
  touchWakeThrottle : List (String × Nat)
  knownIps : List (String × String)
  pendingTouches : List TouchLogEntry
  touchLog : List LogEvent
  spatialCache : SpatialCache
  spatialMap : SpatialMap
deriving Repr, DecidableEq

/-- Body of a POST /api/touch request plus the resolved caller address. -/
structure TouchRequest where
  ttype : String
  x : ℚ
  y : ℚ
  onSprite : Bool
  ip : String
deriving Repr, DecidableEq

/-- JSON response of POST /api/touch (absent fields default). -/
structure TouchResponse where
  ok : Bool := true
  who : Option String := none
  unknown : Bool := false
  needsIdentify : Bool := false
  spatial : Bool := false
  description : Option String := none
  mood : Option String := none
  status : Option String := none
deriving Repr, DecidableEq

/-- Result of one POST /api/touch request: the new process state, the JSON
response, and the identity a wake notification was emitted for (the
fire-and-forget openclaw call), if any. -/
structure TouchOutcome where
  state : ServerState
  response : TouchResponse
  wake : Option String
deriving Repr, DecidableEq

/-- Assignment into a JS object used as a string-keyed map: overwrite the
existing key in place or append a new binding. -/
def mapSet {β : Type} : List (String × β) → String → β → List (String × β)
  | [], k, v => [(k, v)]
  | (k0, v0) :: rest, k, v =>
    if k0 = k then (k, v) :: rest else (k0, v0) :: mapSet rest k v

/-- The pool of instant touch reactions (TOUCH_REACTIONS in server.js). -/
def TOUCH_REACTIONS : List MoodStatus :=
  [⟨"happy", "hey! 💜"⟩,
   ⟨"mischievous", "*poke*"⟩,
   ⟨"excited", "that tickles!"⟩,
   ⟨"happy", "hi hi hi!"⟩,
   ⟨"embarrassed", "oh! 😳"⟩,
   ⟨"cozy", "mmm warm pats 💜"⟩,
   ⟨"proud", "yes I AM great"⟩,
   ⟨"curious", "whatcha need?"⟩,
   ⟨"happy", "hehe 😊"⟩,
   ⟨"excited", "!!!"⟩,
   ⟨"mischievous", "can\x27t catch me~"⟩,
   ⟨"happy", "*purrs*"⟩,
   ⟨"cozy", "more pats pls 🥺"⟩,
   ⟨"proud", "you\x27re lucky I\x27m here"⟩,
   ⟨"embarrassed", "stoppp 😳💜"⟩]

/-- The generic fallback description when no landmark is close enough
(the source string at the end of the nearest-object scan). -/
def GENERIC_EMPTY : String := "just empty floor here... nothing interesting 🤷"

/-- Coarse grid-cell coordinate: Math.min(Math.floor(v * 10), 9). -/
def gridCell (v : ℚ) : Int := min ⌊v * 10⌋ 9

/-- The template string `cellX_cellY` used as a spatial-cache key. -/
def cellKey (cx cy : Int) : String := toString cx ++ "_" ++ toString cy

/-- Lookup of spatialCache[room][cellKey]. -/
def cacheLookup (cache : SpatialCache) (room cellK : String) : Option String :=
  match cache.lookup room with
  | some entries => entries.lookup cellK
  | none => none

/-- Squared Euclidean distance between a landmark position and the click
position (the source compares the square roots; see file header). -/
def sqDist (ox oy x y : ℚ) : ℚ := (ox - x) ^ 2 + (oy - y) ^ 2

/-- One iteration of the nearest-object loop: keep the current best unless
the new object is strictly nearer (bestDist starts at Infinity, so the
first object always replaces an empty accumulator). -/
def scanStep (x y : ℚ) (best : Option (Landmark × ℚ)) (obj : Landmark) :
    Option (Landmark × ℚ) :=
  let d2 := sqDist obj.x obj.y x y
  match best with
  | none => some (obj, d2)
  | some (b, bd2) => if d2 < bd2 then some (obj, d2) else some (b, bd2)

/-- The nearest-object scan over a room's landmarks, returning the best
object together with its squared distance. -/
def scanNearest (x y : ℚ) (objects : List Landmark) : Option (Landmark × ℚ) :=
  objects.foldl (scanStep x y) none

/-- Steps 3 and 4 of the spatial resolver: nearest landmark within the
0.15 proximity threshold, else the generic description. A room missing
from the map yields an empty object list, hence the generic description. -/
def mapResolve (smap : SpatialMap) (room : String) (x y : ℚ) : String :=
  let objects := (smap.lookup room).getD []
  match scanNearest x y objects with
  | some (b, bd2) => if bd2 < (3 / 20) ^ 2 then b.description else GENERIC_EMPTY
  | none => GENERIC_EMPTY

/-- The layered spatial resolution of the double-click-off-sprite branch:
agent override cache first (a present, non-empty entry is truthy in the
source conditional), then the nearest-object scan. -/
def resolveSpatial (cache : SpatialCache) (smap : SpatialMap) (room : String)
    (x y : ℚ) : String :=
  let key := cellKey (gridCell x) (gridCell y)
  match cacheLookup cache room key with
  | some d => if d = "" then mapResolve smap room x y else d
  | none => mapResolve smap room x y

/-- body.type classification: double-click events arrive as dblclick or
doubleclick. -/
def isDoubleClickType (t : String) : Bool :=
  t == "dblclick" || t == "doubleclick"

/-- The guard of the spatial branch: identity known and not guest. -/
def isKnownNonGuest : Option String → Bool
  | some w => w != "guest"
  | none => false

/-- The response object built at the end of the touch route when the
spatial branch did not return early. -/
def mkTouchResponse (who : Option String) (onSprite : Bool) : TouchResponse :=
  match who with
  | some w =>
    if w = "guest" then
      { who := some "guest", mood := some "curious",
        status := some "who goes there? 👀" }
    else
      { who := some w }
  | none => { unknown := true, needsIdentify := onSprite }

/-- Double-click on sprite: write the thinking placeholder, schedule the
10 second revert (which compares status only), null preReactionState at
scheduling time, and consult the wake throttle for a known identity. -/
def touchDoubleClickSprite (st : ServerState) (req : TouchRequest) (now : Nat)
    (who : Option String) : TouchOutcome :=
  let lastWake := (st.touchWakeThrottle.lookup (who.getD req.ip)).getD 0
  let pre := st.preReactionState.getD ⟨st.stateFile.mood, st.stateFile.status⟩
  let written : Presence :=
    { st.stateFile with mood := "excited", status := "one sec... 💭" }
  let timer : PendingRevert :=
    { delayMs := 10000, check := RevertCheck.statusOnly "one sec... 💭",
      restoreTo := pre, clearsPreReaction := false }
  let st2 : ServerState :=
    { st with
      stateFile := written
      preReactionState := none
      reactionRevertTimer := some timer }
  match who with
  | some w =>
    if 30000 < now - lastWake then
      { state := { st2 with touchWakeThrottle := mapSet st2.touchWakeThrottle w now },
        response := mkTouchResponse who req.onSprite, wake := some w }
    else
      { state := st2, response := mkTouchResponse who req.onSprite, wake := none }
  | none => { state := st2, response := mkTouchResponse who req.onSprite, wake := none }

/-- Single tap on sprite: apply a random reaction from the pool, schedule
the 5 second revert (which compares mood and status and nulls
preReactionState when it fires); preReactionState keeps the baseline. -/
def touchTapSprite (st : ServerState) (req : TouchRequest) (rand : Nat)
    (who : Option String) : TouchOutcome :=
  let pre := st.preReactionState.getD ⟨st.stateFile.mood, st.stateFile.status⟩
  let reaction := TOUCH_REACTIONS.getD (rand % TOUCH_REACTIONS.length) ⟨"happy", "hey! 💜"⟩
  let written : Presence :=
    { st.stateFile with mood := reaction.mood, status := reaction.status }
  let timer : PendingRevert :=
    { delayMs := 5000,
      check := RevertCheck.moodAndStatus reaction.mood reaction.status,
      restoreTo := pre, clearsPreReaction := true }
  { state :=
      { st with
        stateFile := written
        preReactionState := some pre
        reactionRevertTimer := some timer },
    response := mkTouchResponse who req.onSprite, wake := none }

/-- Double-click off sprite by a known non-guest identity: resolve a
description for the tap position, write it as status only, schedule the
8 second revert (status-only comparison), null preReactionState at
scheduling time, return the spatial response; no wake. -/
def touchSpatial (st : ServerState) (req : TouchRequest) : TouchOutcome :=
  let room := if st.stateFile.room = "" then "workshop" else st.stateFile.room
  let desc := resolveSpatial st.spatialCache st.spatialMap room req.x req.y
  let pre := st.preReactionState.getD ⟨st.stateFile.mood, st.stateFile.status⟩
  let written : Presence := { st.stateFile with status := desc }
  let timer : PendingRevert :=
    { delayMs := 8000, check := RevertCheck.statusOnly desc,
      restoreTo := pre, clearsPreReaction := false }
  { state :=
      { st with
        stateFile := written
        preReactionState := none
        reactionRevertTimer := some timer },
    response := { spatial := true, description := some desc },
    wake := none }

/-- POST /api/touch: resolve the caller identity from known-ips.json, log
the event (and append it to the pending queue for known identities), then
dispatch to the three reaction branches exactly as the route does. -/
def handleTouch (st : ServerState) (req : TouchRequest) (now rand : Nat) :
    TouchOutcome :=
  let who := st.knownIps.lookup req.ip
  let entry : TouchLogEntry :=
    { ttype := req.ttype, x := req.x, y := req.y, onSprite := req.onSprite,
      ip := req.ip, who := who }
  let st1 : ServerState :=
    { st with
      touchLog := st.touchLog ++ [LogEvent.touch entry]
      pendingTouches :=
        if who.isSome then st.pendingTouches ++ [entry] else st.pendingTouches }
  if req.onSprite && isDoubleClickType req.ttype then
    touchDoubleClickSprite st1 req now who
  else if req.onSprite && !isDoubleClickType req.ttype then
    touchTapSprite st1 req rand who
  else if !req.onSprite && isDoubleClickType req.ttype && isKnownNonGuest who then
    touchSpatial st1 req
  else
    { state := st1, response := mkTouchResponse who req.onSprite, wake := none }

/-- Whether a revert callback's comparison against the current state.json
holds (the guard of the conditional restore). -/
def checkHolds : RevertCheck → Presence → Bool
  | RevertCheck.statusOnly sentinel, cur => cur.status == sentinel
  | RevertCheck.moodAndStatus m s, cur => cur.mood == m && cur.status == s

/-- Deliver the pending revert timer: run the reified setTimeout callback.
The single-tap and identify callbacks null preReactionState first; every
callback re-reads state.json, restores mood and status from the saved
baseline when its comparison holds, and does nothing otherwise. The timer
is single-shot. -/
def fireRevert (st : ServerState) : ServerState :=
  match st.reactionRevertTimer with
  | none => st
  | some pr =>
    let stA :=
      if pr.clearsPreReaction then { st with preReactionState := none } else st
    let stB :=
      if checkHolds pr.check stA.stateFile then
        { stA with
          stateFile :=
            { stA.stateFile with
              mood := pr.restoreTo.mood
              status := pr.restoreTo.status } }
      else stA
    { stB with reactionRevertTimer := none }

/-- Response of POST /api/identify. -/
inductive IdentifyResponse where
  | invalidWho
  | ok (who : String)
deriving Repr, DecidableEq

/-- The closed set of identities /api/identify accepts. -/
def VALID_WHO : List String := ["miranda", "ryan", "guest"]

/-- POST /api/identify: validate the identity against the closed set,
record the address mapping (overwriting any previous one), log the
identification, and re-trigger the tap reaction so the caller gets
immediate feedback (guests get the fixed curious response instead of a
pool reaction). -/
def handleIdentify (st : ServerState) (ip who emoji : String) (rand : Nat) :
    ServerState × IdentifyResponse :=
  if who = "" ∨ ¬ VALID_WHO.contains who then
    (st, IdentifyResponse.invalidWho)
  else
    let st1 : ServerState :=
      { st with
        knownIps := mapSet st.knownIps ip who
        touchLog := st.touchLog ++ [LogEvent.identified ip who emoji] }
    let pre := st1.preReactionState.getD ⟨st1.stateFile.mood, st1.stateFile.status⟩
    let applied : MoodStatus :=
      if who = "guest" then ⟨"curious", "who goes there? 👀"⟩
      else TOUCH_REACTIONS.getD (rand % TOUCH_REACTIONS.length) ⟨"happy", "hey! 💜"⟩
    ({ st1 with
        stateFile := { st1.stateFile with mood := applied.mood, status := applied.status }
        preReactionState := some pre
        reactionRevertTimer := some
          { delayMs := 5000,
            check := RevertCheck.moodAndStatus applied.mood applied.status,
            restoreTo := pre, clearsPreReaction := true } },
     IdentifyResponse.ok who)

/-- GET /api/pending-touches: return the queue contents and truncate the
file to empty in the same operation. -/
def handlePendingTouches (st : ServerState) : ServerState × List TouchLogEntry :=
  ({ st with pendingTouches := [] }, st.pendingTouches)

/-- Response of POST /api/spatial-cache. -/
inductive SpatialCacheResponse where
  | missingField
  | ok (room cell : String)
deriving Repr, DecidableEq

/-- Insertion into the nested spatial cache structure. -/
def cacheSet : SpatialCache → String → String → String → SpatialCache
  | [], room, cell, desc => [(room, [(cell, desc)])]
  | (r, entries) :: rest, room, cell, desc =>
    if r = room then (r, mapSet entries cell desc) :: rest
    else (r, entries) :: cacheSet rest room cell desc

/-- POST /api/spatial-cache: validate that the three fields are present
(truthy), store the cache entry, and also overwrite state.json status
with the supplied description. -/
def handleSpatialCache (st : ServerState) (room cell description : String) :
    ServerState × SpatialCacheResponse :=
  if room = "" ∨ cell = "" ∨ description = "" then
    (st, SpatialCacheResponse.missingField)
  else
    let st1 : ServerState :=
      { st with spatialCache := cacheSet st.spatialCache room cell description }
    let st2 : ServerState :=
      { st1 with stateFile := { st1.stateFile with status := description } }
    (st2, SpatialCacheResponse.ok room cell)

/-- A concrete initial process state used by the concrete scenarios below:
an agent-written presence, no active reaction, one known address. -/
def baseState : ServerState :=
  { stateFile := ⟨"focused", "tending the herbs", "workshop", "desk"⟩
    preReactionState := none
    reactionRevertTimer := none
    touchWakeThrottle := []
    knownIps := [("10.0.0.5", "miranda")]
    pendingTouches := []
    touchLog := []
    spatialCache := []
    spatialMap := [] }

/-- A double-click on the sprite from the known address. -/
def dblOnSprite : TouchRequest := ⟨"dblclick", 1/2, 1/2, true, "10.0.0.5"⟩

/-- A single tap on the sprite from the known address. -/
def tapOnSprite : TouchRequest := ⟨"click", 1/2, 1/2, true, "10.0.0.5"⟩

/-- The same base state with no known addresses at all. -/
def anonState : ServerState := { baseState with knownIps := [] }

/-- Base state plus a one-landmark spatial map for the workshop. -/
def spatState : ServerState :=
  { baseState with spatialMap := [("workshop", [⟨1/2, 1/2, "the cauldron"⟩])] }

/-- Base state with both a cache entry for cell 3_4 of the workshop and a
landmark inside that same cell (at the exact tap position, so at distance
zero, well inside the proximity threshold). -/
def spatCacheState : ServerState :=
  { baseState with
    spatialCache := [("workshop", [("3_4", "a rune-carved broom, still warm")])]
    spatialMap := [("workshop", [⟨7/20, 9/20, "the broom"⟩])] }

/-- Off-sprite double-click at horizontal distance 14/100 from the
cauldron landmark of spatState. -/
def offSpriteDbl14 : TouchRequest := ⟨"dblclick", 16/25, 1/2, false, "10.0.0.5"⟩

/-- Off-sprite double-click at horizontal distance 16/100 from the
cauldron landmark of spatState. -/
def offSpriteDbl16 : TouchRequest := ⟨"dblclick", 33/50, 1/2, false, "10.0.0.5"⟩

/-- Off-sprite double-click landing in grid cell 3_4. -/
def offSpriteDblCell34 : TouchRequest := ⟨"dblclick", 7/20, 9/20, false, "10.0.0.5"⟩

/-- Process state right after the double-click of the C3 scenario: the
placeholder is on screen and the 10 second revert is pending. -/
def c3AfterDbl : ServerState := (handleTouch baseState dblOnSprite 100000 0).state

/-- The C3 scenario external write: before the deadline fires, an outside
writer (the agent) changes the mood field only, leaving the placeholder
status in place. -/
def c3ExternalWrite : ServerState :=
  { c3AfterDbl with stateFile := { c3AfterDbl.stateFile with mood := "determined" } }

theorem mapSet_lookup_self {β : Type} (m : List (String × β)) (k : String) (v : β) :
    (mapSet m k v).lookup k = some v := by
  induction m with
  | nil => simp [mapSet, List.lookup]
  | cons p rest ih =>
    obtain ⟨k0, v0⟩ := p
    by_cases h : k0 = k
    · simp [mapSet, h, List.lookup]
    · have hb : (k == k0) = false := beq_eq_false_iff_ne.mpr (Ne.symm h)
      simp [mapSet, h, List.lookup, hb, ih]

theorem mapSet_lookup_ne {β : Type} (m : List (String × β)) (k k2 : String) (v : β)
    (h : k2 ≠ k) : (mapSet m k v).lookup k2 = m.lookup k2 := by
  have hb : (k2 == k) = false := beq_eq_false_iff_ne.mpr h
  induction m with
  | nil => simp [mapSet, List.lookup, hb]
  | cons p rest ih =>
    obtain ⟨k0, v0⟩ := p
    by_cases h0 : k0 = k
    · subst h0
      simp [mapSet, List.lookup, hb]
    · simp [mapSet, h0, List.lookup, ih]

theorem cacheSet_lookup_self (c : SpatialCache) (room cell desc : String) :
    cacheLookup (cacheSet c room cell desc) room cell = some desc := by
  induction c with
  | nil => simp [cacheSet, cacheLookup, List.lookup, mapSet_lookup_self]
  | cons p rest ih =>
    obtain ⟨r, entries⟩ := p
    by_cases h : r = room
    · subst h
      simp [cacheSet, cacheLookup, List.lookup, mapSet_lookup_self]
    · have hb : (room == r) = false := beq_eq_false_iff_ne.mpr (Ne.symm h)
      simp only [cacheSet, if_neg h]
      simpa [cacheLookup, List.lookup, hb] using ih

/-- C7: GET /api/pending-touches is a destructive read: it returns the
current queue contents and truncates the queue to empty in the same
operation, so a second consecutive call returns an empty batch. -/
theorem c7_destructive_read (st : ServerState) :
    (handlePendingTouches st).2 = st.pendingTouches ∧
    (handlePendingTouches st).1.pendingTouches = [] ∧
    (handlePendingTouches (handlePendingTouches st).1).2 = [] := by
  simp [handlePendingTouches]

/-- C10: POST /api/spatial-cache with all three fields present stores the
cache entry and also overwrites the status field of state.json with the
supplied description, leaving mood, room and location unchanged. -/
theorem c10_spatial_cache_status_write (st : ServerState)
    (room cell desc : String)
    (hr : room ≠ "") (hc : cell ≠ "") (hd : desc ≠ "") :
    (handleSpatialCache st room cell desc).1.stateFile.status = desc ∧
    (handleSpatialCache st room cell desc).1.stateFile.mood = st.stateFile.mood ∧
    (handleSpatialCache st room cell desc).1.stateFile.room = st.stateFile.room ∧
    (handleSpatialCache st room cell desc).1.stateFile.location = st.stateFile.location ∧
    cacheLookup (handleSpatialCache st room cell desc).1.spatialCache room cell = some desc ∧
    (handleSpatialCache st room cell desc).2 = SpatialCacheResponse.ok room cell := by
  simp [handleSpatialCache, hr, hc, hd, cacheSet_lookup_self]

/-- Witness for C10 at a concrete request. -/
theorem c10_spatial_cache_status_write_witness :
    ("workshop" ≠ "" ∧ "3_4" ≠ "" ∧ "a dusty shelf of potions" ≠ "") ∧
    ((handleSpatialCache baseState "workshop" "3_4" "a dusty shelf of potions").1.stateFile.status =
      "a dusty shelf of potions" ∧
     (handleSpatialCache baseState "workshop" "3_4" "a dusty shelf of potions").1.stateFile.mood =
      baseState.stateFile.mood ∧
     (handleSpatialCache baseState "workshop" "3_4" "a dusty shelf of potions").1.stateFile.room =
      baseState.stateFile.room ∧
     (handleSpatialCache baseState "workshop" "3_4" "a dusty shelf of potions").1.stateFile.location =
      baseState.stateFile.location ∧
     cacheLookup (handleSpatialCache baseState "workshop" "3_4" "a dusty shelf of potions").1.spatialCache
      "workshop" "3_4" = some "a dusty shelf of potions" ∧
     (handleSpatialCache baseState "workshop" "3_4" "a dusty shelf of potions").2 =
      SpatialCacheResponse.ok "workshop" "3_4") :=
  ⟨⟨by decide, by decide, by decide⟩,
   c10_spatial_cache_status_write baseState "workshop" "3_4" "a dusty shelf of potions"
     (by decide) (by decide) (by decide)⟩

/-- C8: POST /api/identify rejects with a validation error exactly when the
identity is outside the closed set miranda / ryan / guest; a valid identity
is written as the mapping for the caller address (overwriting any prior
mapping, other addresses untouched) and acknowledged with the identity. -/
theorem c8_identify_validation (st : ServerState) (ip who emoji : String)
    (rand : Nat) :
    ((handleIdentify st ip who emoji rand).2 = IdentifyResponse.invalidWho ↔
      VALID_WHO.contains who = false) ∧
    (VALID_WHO.contains who = true →
      (handleIdentify st ip who emoji rand).1.knownIps.lookup ip = some who ∧
      (∀ ip2, ip2 ≠ ip →
        (handleIdentify st ip who emoji rand).1.knownIps.lookup ip2 =
          st.knownIps.lookup ip2) ∧
      (handleIdentify st ip who emoji rand).2 = IdentifyResponse.ok who) := by
  by_cases h : VALID_WHO.contains who = true
  · have hmem : who ∈ VALID_WHO := by simpa using h
    have hne : who ≠ "" := by
      intro he
      rw [he] at hmem
      simp [VALID_WHO] at hmem
    refine ⟨?_, ?_⟩
    · simp [handleIdentify, h, hne, hmem]
    · intro _
      refine ⟨?_, ?_, ?_⟩
      · simp [handleIdentify, hne, hmem, mapSet_lookup_self]
      · intro ip2 hip
        simp [handleIdentify, hne, hmem, mapSet_lookup_ne st.knownIps ip ip2 who hip]
      · simp [handleIdentify, hne, hmem]
  · have hnot : who ∉ VALID_WHO := by
      intro hmem
      exact h (by simpa using hmem)
    have hf : VALID_WHO.contains who = false := by
      cases hv : VALID_WHO.contains who
      · rfl
      · exact absurd hv h
    refine ⟨?_, ?_⟩
    · simp [handleIdentify, hf, hnot]
    · intro hcontra
      rw [hcontra] at hf
      exact absurd hf (by decide)

/-- Witness for C8 at a concrete valid identification. -/
theorem c8_identify_validation_witness :
    VALID_WHO.contains "ryan" = true ∧
    (handleIdentify baseState "10.0.0.9" "ryan" "🛻" 2).1.knownIps.lookup "10.0.0.9" =
      some "ryan" ∧
    (handleIdentify baseState "10.0.0.9" "ryan" "🛻" 2).2 = IdentifyResponse.ok "ryan" := by
  have h := (c8_identify_validation baseState "10.0.0.9" "ryan" "🛻" 2).2 (by decide)
  exact ⟨by decide, h.1, h.2.2⟩

theorem handleTouch_dbl_core (st : ServerState) (req : TouchRequest)
    (now rand : Nat)
    (ho : req.onSprite = true) (hd : isDoubleClickType req.ttype = true) :
    (handleTouch st req now rand).state.stateFile =
      { st.stateFile with mood := "excited", status := "one sec... 💭" } ∧
    (handleTouch st req now rand).state.preReactionState = none ∧
    (handleTouch st req now rand).state.reactionRevertTimer =
      some ⟨10000, RevertCheck.statusOnly "one sec... 💭",
        st.preReactionState.getD ⟨st.stateFile.mood, st.stateFile.status⟩, false⟩ ∧
    (handleTouch st req now rand).state.knownIps = st.knownIps := by
  simp only [handleTouch, ho, hd, Bool.true_and, Bool.not_true, Bool.false_and, if_true]
  unfold touchDoubleClickSprite
  cases hwo : st.knownIps.lookup req.ip with
  | none => simp [hwo]
  | some w =>
    simp only [hwo]
    by_cases hgt : 30000 < now - (List.lookup w st.touchWakeThrottle).getD 0 <;>
      simp [hgt]

theorem handleTouch_tap_core (st : ServerState) (req : TouchRequest)
    (now rand : Nat)
    (ho : req.onSprite = true) (hd : isDoubleClickType req.ttype = false) :
    (handleTouch st req now rand).state.stateFile =
      { st.stateFile with
        mood := (TOUCH_REACTIONS.getD (rand % TOUCH_REACTIONS.length) ⟨"happy", "hey! 💜"⟩).mood
        status := (TOUCH_REACTIONS.getD (rand % TOUCH_REACTIONS.length) ⟨"happy", "hey! 💜"⟩).status } ∧
    (handleTouch st req now rand).state.preReactionState =
      some (st.preReactionState.getD ⟨st.stateFile.mood, st.stateFile.status⟩) ∧
    (handleTouch st req now rand).state.reactionRevertTimer =
      some ⟨5000,
        RevertCheck.moodAndStatus
          (TOUCH_REACTIONS.getD (rand % TOUCH_REACTIONS.length) ⟨"happy", "hey! 💜"⟩).mood
          (TOUCH_REACTIONS.getD (rand % TOUCH_REACTIONS.length) ⟨"happy", "hey! 💜"⟩).status,
        st.preReactionState.getD ⟨st.stateFile.mood, st.stateFile.status⟩, true⟩ ∧
    (handleTouch st req now rand).wake = none := by
  simp [handleTouch, ho, hd, touchTapSprite]

theorem handleTouch_spatial_core (st : ServerState) (req : TouchRequest)
    (now rand : Nat) (w : String)
    (hw : st.knownIps.lookup req.ip = some w) (hg : w ≠ "guest")
    (ho : req.onSprite = false) (hd : isDoubleClickType req.ttype = true) :
    (handleTouch st req now rand).state.stateFile =
      { st.stateFile with
        status := resolveSpatial st.spatialCache st.spatialMap
          (if st.stateFile.room = "" then "workshop" else st.stateFile.room) req.x req.y } ∧
    (handleTouch st req now rand).state.preReactionState = none ∧
    (handleTouch st req now rand).state.reactionRevertTimer =
      some ⟨8000,
        RevertCheck.statusOnly (resolveSpatial st.spatialCache st.spatialMap
          (if st.stateFile.room = "" then "workshop" else st.stateFile.room) req.x req.y),
        st.preReactionState.getD ⟨st.stateFile.mood, st.stateFile.status⟩, false⟩ ∧
    (handleTouch st req now rand).response =
      { spatial := true,
        description := some (resolveSpatial st.spatialCache st.spatialMap
          (if st.stateFile.room = "" then "workshop" else st.stateFile.room) req.x req.y) } ∧
    (handleTouch st req now rand).wake = none := by
  have hbn : (w != "guest") = true := bne_iff_ne.mpr hg
  simp [handleTouch, hw, ho, hd, isKnownNonGuest, hbn, touchSpatial]

theorem fireRevert_statusOnly (st : ServerState) (s : String) (base : MoodStatus)
    (d : Nat) (c : Bool)
    (h : st.reactionRevertTimer = some ⟨d, RevertCheck.statusOnly s, base, c⟩) :
    (fireRevert st).stateFile =
      if st.stateFile.status = s then
        { st.stateFile with mood := base.mood, status := base.status }
      else st.stateFile := by
  cases c <;>
    · simp only [fireRevert, h, checkHolds]
      by_cases he : st.stateFile.status = s <;> simp [he]

theorem fireRevert_moodAndStatus (st : ServerState) (m s : String)
    (base : MoodStatus) (d : Nat) (c : Bool)
    (h : st.reactionRevertTimer = some ⟨d, RevertCheck.moodAndStatus m s, base, c⟩) :
    (fireRevert st).stateFile =
      if st.stateFile.mood = m ∧ st.stateFile.status = s then
        { st.stateFile with mood := base.mood, status := base.status }
      else st.stateFile := by
  cases c <;>
    · simp only [fireRevert, h, checkHolds]
      by_cases hm : st.stateFile.mood = m <;> by_cases hs : st.stateFile.status = s <;>
        simp [hm, hs]

/-- C1 counterexample: a single tap on the sprite from an address with no
identity record (reaction index 0, so the pool entry happy / hey! 💜) does
mutate state.json — mood and status both change — even though the response
carries needsIdentify:true. The claim says the handler performs no mutation
of the presence record for such a request. -/
theorem c1_anonymous_tap_mutates :
    anonState.knownIps.lookup tapOnSprite.ip = none ∧
    (handleTouch anonState tapOnSprite 100000 0).response.needsIdentify = true ∧
    (handleTouch anonState tapOnSprite 100000 0).state.stateFile.mood = "happy" ∧
    anonState.stateFile.mood = "focused" ∧
    (handleTouch anonState tapOnSprite 100000 0).state.stateFile.status = "hey! 💜" ∧
    anonState.stateFile.status = "tending the herbs" :=
  ⟨rfl, rfl, rfl, rfl, rfl, rfl⟩

/-- C1 amended: a touch from an address with no identity record always gets
unknown:true, needsIdentify exactly when the touch was on the sprite, and
no wake; an off-sprite anonymous touch is logged but leaves state.json
unchanged, while on-sprite anonymous taps and double-taps still mutate
state.json exactly as identified ones do (random pool reaction resp. the
thinking placeholder). -/
theorem c1_identity_gate_amended (st : ServerState) (req : TouchRequest)
    (now rand : Nat) (hw : st.knownIps.lookup req.ip = none) :
    (handleTouch st req now rand).response.unknown = true ∧
    (handleTouch st req now rand).response.needsIdentify = req.onSprite ∧
    (handleTouch st req now rand).wake = none ∧
    (req.onSprite = false → (handleTouch st req now rand).state.stateFile = st.stateFile) ∧
    (req.onSprite = true → isDoubleClickType req.ttype = false →
      (handleTouch st req now rand).state.stateFile.mood =
        (TOUCH_REACTIONS.getD (rand % TOUCH_REACTIONS.length) ⟨"happy", "hey! 💜"⟩).mood ∧
      (handleTouch st req now rand).state.stateFile.status =
        (TOUCH_REACTIONS.getD (rand % TOUCH_REACTIONS.length) ⟨"happy", "hey! 💜"⟩).status) ∧
    (req.onSprite = true → isDoubleClickType req.ttype = true →
      (handleTouch st req now rand).state.stateFile.mood = "excited" ∧
      (handleTouch st req now rand).state.stateFile.status = "one sec... 💭") := by
  cases ho : req.onSprite
  · cases hd : isDoubleClickType req.ttype <;>
      simp [handleTouch, hw, ho, hd, isKnownNonGuest, mkTouchResponse]
  · cases hd : isDoubleClickType req.ttype
    · simp [handleTouch, hw, ho, hd, touchTapSprite, mkTouchResponse]
    · simp [handleTouch, hw, ho, hd, touchDoubleClickSprite, mkTouchResponse]

/-- Witness for the amended C1 at the concrete anonymous tap. -/
theorem c1_identity_gate_amended_witness :
    anonState.knownIps.lookup tapOnSprite.ip = none ∧
    (handleTouch anonState tapOnSprite 100000 0).response.unknown = true ∧
    (handleTouch anonState tapOnSprite 100000 0).response.needsIdentify = tapOnSprite.onSprite ∧
    (handleTouch anonState tapOnSprite 100000 0).wake = none := by
  have h := c1_identity_gate_amended anonState tapOnSprite 100000 0 (by decide)
  exact ⟨by decide, h.1, h.2.1, h.2.2.1⟩

/-- C2 scenario showing the code bug: presence starts at focused / tending
the herbs; a double-click on the sprite captures that baseline but the
branch nulls preReactionState at scheduling time, so a tap arriving one
second later (while the session is active) re-captures the placeholder
excited / one sec... 💭 as its baseline; when the tap revert fires, the
record ends at the placeholder instead of the pre-chain baseline the claim
(and the comment block above the touch system state in server.js)
require. -/
theorem c2_baseline_recapture_bug :
    baseState.stateFile.mood = "focused" ∧
    baseState.stateFile.status = "tending the herbs" ∧
    (handleTouch baseState dblOnSprite 100000 0).state.preReactionState = none ∧
    (handleTouch (handleTouch baseState dblOnSprite 100000 0).state
      tapOnSprite 101000 0).state.preReactionState =
      some ⟨"excited", "one sec... 💭"⟩ ∧
    (fireRevert (handleTouch (handleTouch baseState dblOnSprite 100000 0).state
      tapOnSprite 101000 0).state).stateFile.mood = "excited" ∧
    (fireRevert (handleTouch (handleTouch baseState dblOnSprite 100000 0).state
      tapOnSprite 101000 0).state).stateFile.status = "one sec... 💭" :=
  ⟨rfl, rfl, rfl, rfl, rfl, rfl⟩

/-- C3 counterexample: after a double-click wrote excited / one sec... 💭,
an external writer changes only the mood (status still equals the written
placeholder). The claim says the revert then performs no write, but the
double-click callback compares only status, so when the deadline fires it
still restores the baseline, clobbering the external mood. -/
theorem c3_mood_only_change_still_reverted :
    c3ExternalWrite.stateFile.mood = "determined" ∧
    c3ExternalWrite.stateFile.status = "one sec... 💭" ∧
    ("determined" : String) ≠ "excited" ∧
    (fireRevert c3ExternalWrite).stateFile ≠ c3ExternalWrite.stateFile ∧
    (fireRevert c3ExternalWrite).stateFile.mood = "focused" ∧
    (fireRevert c3ExternalWrite).stateFile.status = "tending the herbs" :=
  ⟨rfl, rfl, by decide, by decide, rfl, rfl⟩

/-- C3 amended: when a scheduled revert fires the handler re-reads the
record; the 5 second tap revert restores the baseline exactly when both
mood and status still equal what the session wrote, but the 10 second
double-tap revert and the 8 second spatial revert compare only the status
field against the value they wrote, so an external change of mood alone
does not stop those two reverts. Stated end to end: handle the touch, let
an external writer replace state.json with an arbitrary record ext, then
fire the deadline. -/
theorem c3_revert_checks_amended :
    (∀ (st : ServerState) (req : TouchRequest) (now rand : Nat) (ext : Presence),
      req.onSprite = true → isDoubleClickType req.ttype = true →
      (fireRevert { (handleTouch st req now rand).state with stateFile := ext }).stateFile =
        if ext.status = "one sec... 💭" then
          { ext with
            mood := (st.preReactionState.getD ⟨st.stateFile.mood, st.stateFile.status⟩).mood
            status := (st.preReactionState.getD ⟨st.stateFile.mood, st.stateFile.status⟩).status }
        else ext) ∧
    (∀ (st : ServerState) (req : TouchRequest) (now rand : Nat) (ext : Presence),
      req.onSprite = true → isDoubleClickType req.ttype = false →
      (fireRevert { (handleTouch st req now rand).state with stateFile := ext }).stateFile =
        if ext.mood = (TOUCH_REACTIONS.getD (rand % TOUCH_REACTIONS.length) ⟨"happy", "hey! 💜"⟩).mood
            ∧ ext.status = (TOUCH_REACTIONS.getD (rand % TOUCH_REACTIONS.length) ⟨"happy", "hey! 💜"⟩).status then
          { ext with
            mood := (st.preReactionState.getD ⟨st.stateFile.mood, st.stateFile.status⟩).mood
            status := (st.preReactionState.getD ⟨st.stateFile.mood, st.stateFile.status⟩).status }
        else ext) ∧
    (∀ (st : ServerState) (req : TouchRequest) (now rand : Nat) (ext : Presence) (w : String),
      st.knownIps.lookup req.ip = some w → w ≠ "guest" →
      req.onSprite = false → isDoubleClickType req.ttype = true →
      (fireRevert { (handleTouch st req now rand).state with stateFile := ext }).stateFile =
        if ext.status = resolveSpatial st.spatialCache st.spatialMap
            (if st.stateFile.room = "" then "workshop" else st.stateFile.room) req.x req.y then
          { ext with
            mood := (st.preReactionState.getD ⟨st.stateFile.mood, st.stateFile.status⟩).mood
            status := (st.preReactionState.getD ⟨st.stateFile.mood, st.stateFile.status⟩).status }
        else ext) := by
  refine ⟨?_, ?_, ?_⟩
  · intro st req now rand ext ho hd
    have hcore := (handleTouch_dbl_core st req now rand ho hd).2.2.1
    exact fireRevert_statusOnly _ _ _ _ _ (by simpa using hcore)
  · intro st req now rand ext ho hd
    have hcore := (handleTouch_tap_core st req now rand ho hd).2.2.1
    exact fireRevert_moodAndStatus _ _ _ _ _ _ (by simpa using hcore)
  · intro st req now rand ext w hw hg ho hd
    have hcore := (handleTouch_spatial_core st req now rand w hw hg ho hd).2.2.1
    exact fireRevert_statusOnly _ _ _ _ _ (by simpa using hcore)

/-- Witness for the amended C3: the concrete C3 scenario, through the
first conjunct. -/
theorem c3_revert_checks_amended_witness :
    dblOnSprite.onSprite = true ∧ isDoubleClickType dblOnSprite.ttype = true ∧
    (fireRevert { (handleTouch baseState dblOnSprite 100000 0).state with
        stateFile := ⟨"determined", "one sec... 💭", "workshop", "desk"⟩ }).stateFile =
      ⟨"focused", "tending the herbs", "workshop", "desk"⟩ := by
  have h := c3_revert_checks_amended.1 baseState dblOnSprite 100000 0
    ⟨"determined", "one sec... 💭", "workshop", "desk"⟩ (by decide) (by decide)
  refine ⟨by decide, by decide, ?_⟩
  rw [h]
  decide

/-- C5: on an off-sprite double-click by a known non-guest identity, when
the spatial cache has a (non-empty, hence truthy) entry for the room and
the grid cell of the tap, that entry is returned verbatim as the
description and written as the status — for every spatial map, so it takes
priority over any landmark and over the generic fallback regardless of
distances. -/
theorem c5_cache_priority (st : ServerState) (req : TouchRequest)
    (now rand : Nat) (w d : String)
    (hw : st.knownIps.lookup req.ip = some w) (hg : w ≠ "guest")
    (ho : req.onSprite = false) (hd : isDoubleClickType req.ttype = true)
    (hcache : cacheLookup st.spatialCache
      (if st.stateFile.room = "" then "workshop" else st.stateFile.room)
      (cellKey (gridCell req.x) (gridCell req.y)) = some d)
    (hne : d ≠ "") :
    (handleTouch st req now rand).response.description = some d ∧
    (handleTouch st req now rand).state.stateFile.status = d := by
  have hres : resolveSpatial st.spatialCache st.spatialMap
      (if st.stateFile.room = "" then "workshop" else st.stateFile.room) req.x req.y = d := by
    simp [resolveSpatial, hcache, hne]
  have hcore := handleTouch_spatial_core st req now rand w hw hg ho hd
  refine ⟨?_, ?_⟩
  · rw [hcore.2.2.2.1, hres]
  · rw [hcore.1, hres]

/-- Witness for C5: a tap in cell 3_4 of the workshop with a cache entry
for that cell and a landmark at the very tap position (distance zero, well
inside the threshold); the cache entry wins. -/
theorem c5_cache_priority_witness :
    cacheLookup spatCacheState.spatialCache "workshop"
      (cellKey (gridCell offSpriteDblCell34.x) (gridCell offSpriteDblCell34.y)) =
      some "a rune-carved broom, still warm" ∧
    (handleTouch spatCacheState offSpriteDblCell34 100000 0).response.description =
      some "a rune-carved broom, still warm" ∧
    (handleTouch spatCacheState offSpriteDblCell34 100000 0).state.stateFile.status =
      "a rune-carved broom, still warm" := by
  have hx : gridCell offSpriteDblCell34.x = 3 := by
    show gridCell (7/20) = 3
    unfold gridCell
    norm_num
  have hy : gridCell offSpriteDblCell34.y = 4 := by
    show gridCell (9/20) = 4
    unfold gridCell
    norm_num
  have hkey : cellKey (gridCell offSpriteDblCell34.x) (gridCell offSpriteDblCell34.y) = "3_4" := by
    rw [hx, hy]
    decide
  have hcache : cacheLookup spatCacheState.spatialCache
      (if spatCacheState.stateFile.room = "" then "workshop" else spatCacheState.stateFile.room)
      (cellKey (gridCell offSpriteDblCell34.x) (gridCell offSpriteDblCell34.y)) =
      some "a rune-carved broom, still warm" := by
    rw [hkey]
    decide
  have h := c5_cache_priority spatCacheState offSpriteDblCell34 100000 0
    "miranda" "a rune-carved broom, still warm" (by decide) (by decide) (by decide)
    (by decide) hcache (by decide)
  refine ⟨?_, h.1, h.2⟩
  rw [hkey]
  decide

/-- C9: an off-sprite double-click by a known non-guest identity writes the
resolved description into the status field only — mood, room and location
of state.json are unchanged — schedules an 8 second revert, and emits no
wake notification. -/
theorem c9_spatial_frame_effect (st : ServerState) (req : TouchRequest)
    (now rand : Nat) (w : String)
    (hw : st.knownIps.lookup req.ip = some w) (hg : w ≠ "guest")
    (ho : req.onSprite = false) (hd : isDoubleClickType req.ttype = true) :
    (handleTouch st req now rand).state.stateFile.mood = st.stateFile.mood ∧
    (handleTouch st req now rand).state.stateFile.room = st.stateFile.room ∧
    (handleTouch st req now rand).state.stateFile.location = st.stateFile.location ∧
    (handleTouch st req now rand).state.stateFile.status =
      resolveSpatial st.spatialCache st.spatialMap
        (if st.stateFile.room = "" then "workshop" else st.stateFile.room) req.x req.y ∧
    (handleTouch st req now rand).state.reactionRevertTimer =
      some ⟨8000,
        RevertCheck.statusOnly (resolveSpatial st.spatialCache st.spatialMap
          (if st.stateFile.room = "" then "workshop" else st.stateFile.room) req.x req.y),
        st.preReactionState.getD ⟨st.stateFile.mood, st.stateFile.status⟩, false⟩ ∧
    (handleTouch st req now rand).wake = none := by
  have hcore := handleTouch_spatial_core st req now rand w hw hg ho hd
  refine ⟨?_, ?_, ?_, ?_, hcore.2.2.1, hcore.2.2.2.2⟩
  · rw [hcore.1]
  · rw [hcore.1]
  · rw [hcore.1]
  · rw [hcore.1]

/-- Witness for C9: the concrete off-sprite double-click of the C5
scenario, checking the frame conditions and the scheduled revert. -/
theorem c9_spatial_frame_effect_witness :
    (handleTouch spatState offSpriteDbl14 100000 0).state.stateFile.mood =
      spatState.stateFile.mood ∧
    (handleTouch spatState offSpriteDbl14 100000 0).state.stateFile.room =
      spatState.stateFile.room ∧
    (handleTouch spatState offSpriteDbl14 100000 0).state.stateFile.location =
      spatState.stateFile.location ∧
    (handleTouch spatState offSpriteDbl14 100000 0).wake = none := by
  have h := c9_spatial_frame_effect spatState offSpriteDbl14 100000 0 "miranda"
    (by decide) (by decide) (by decide) (by decide)
  exact ⟨h.1, h.2.1, h.2.2.1, h.2.2.2.2.2⟩

theorem handleTouch_dbl_wake (st : ServerState) (req : TouchRequest)
    (now rand : Nat) (w : String)
    (ho : req.onSprite = true) (hd : isDoubleClickType req.ttype = true)
    (hw : st.knownIps.lookup req.ip = some w) :
    (30000 < now - (st.touchWakeThrottle.lookup w).getD 0 →
      (handleTouch st req now rand).wake = some w ∧
      (handleTouch st req now rand).state.touchWakeThrottle =
        mapSet st.touchWakeThrottle w now) ∧
    (¬ 30000 < now - (st.touchWakeThrottle.lookup w).getD 0 →
      (handleTouch st req now rand).wake = none ∧
      (handleTouch st req now rand).state.touchWakeThrottle =
        st.touchWakeThrottle) := by
  constructor <;> intro hgt <;>
    simp [handleTouch, ho, hd, hw, touchDoubleClickSprite, hgt]

/-- C4: in the double-click wake path, given a real clock (now > 30s after
the epoch), a wake notification is emitted and the throttle record updated
to now exactly when the identity has no throttle record yet or strictly
more than 30000 ms have passed since its recorded last wake; a suppressed
attempt leaves the throttle map unchanged. Concretely, for any base time
t0 > 30s, attempts by miranda at t0, t0+29s and t0+31s succeed, fail and
succeed, the failed attempt leaving the throttle untouched. -/
theorem c4_wake_throttle :
    (∀ (st : ServerState) (req : TouchRequest) (now rand : Nat) (w : String),
      req.onSprite = true → isDoubleClickType req.ttype = true →
      st.knownIps.lookup req.ip = some w → 30000 < now →
      ((((handleTouch st req now rand).wake = some w ∧
         (handleTouch st req now rand).state.touchWakeThrottle =
           mapSet st.touchWakeThrottle w now) ↔
        (st.touchWakeThrottle.lookup w = none ∨
         ∃ l, st.touchWakeThrottle.lookup w = some l ∧ 30000 < now - l)) ∧
       ((handleTouch st req now rand).wake = none →
         (handleTouch st req now rand).state.touchWakeThrottle =
           st.touchWakeThrottle))) ∧
    (∀ t0 : Nat, 30000 < t0 →
      (handleTouch baseState dblOnSprite t0 0).wake = some "miranda" ∧
      (handleTouch (handleTouch baseState dblOnSprite t0 0).state
        dblOnSprite (t0 + 29000) 0).wake = none ∧
      (handleTouch (handleTouch baseState dblOnSprite t0 0).state
        dblOnSprite (t0 + 29000) 0).state.touchWakeThrottle =
        (handleTouch baseState dblOnSprite t0 0).state.touchWakeThrottle ∧
      (handleTouch (handleTouch (handleTouch baseState dblOnSprite t0 0).state
        dblOnSprite (t0 + 29000) 0).state dblOnSprite (t0 + 31000) 0).wake =
        some "miranda") := by
  constructor
  · intro st req now rand w ho hd hw hnow
    have hwake := handleTouch_dbl_wake st req now rand w ho hd hw
    constructor
    · constructor
      · rintro ⟨hwk, -⟩
        by_cases hgt : 30000 < now - (st.touchWakeThrottle.lookup w).getD 0
        · cases hl : st.touchWakeThrottle.lookup w with
          | none => exact Or.inl rfl
          | some l =>
            refine Or.inr ⟨l, rfl, ?_⟩
            rw [hl] at hgt
            simpa using hgt
        · exfalso
          have hnone := (hwake.2 hgt).1
          rw [hwk] at hnone
          exact Option.noConfusion hnone
      · intro hrhs
        have hgt : 30000 < now - (st.touchWakeThrottle.lookup w).getD 0 := by
          rcases hrhs with hnone | ⟨l, hl, hlt⟩
          · rw [hnone]
            simpa using hnow
          · rw [hl]
            simpa using hlt
        exact hwake.1 hgt
    · intro hnone
      by_cases hgt : 30000 < now - (st.touchWakeThrottle.lookup w).getD 0
      · exfalso
        have hsome := (hwake.1 hgt).1
        rw [hnone] at hsome
        exact Option.noConfusion hsome
      · exact (hwake.2 hgt).2
  · intro t0 ht
    have hgt1 : 30000 < t0 - (baseState.touchWakeThrottle.lookup "miranda").getD 0 := by
      have hthr0 : baseState.touchWakeThrottle.lookup "miranda" = none := by decide
      rw [hthr0]
      simpa using ht
    have h1 := handleTouch_dbl_wake baseState dblOnSprite t0 0 "miranda"
      (by decide) (by decide) (by decide)
    obtain ⟨hw1, hthr1⟩ := h1.1 hgt1
    have hknown1 : (handleTouch baseState dblOnSprite t0 0).state.knownIps =
        baseState.knownIps :=
      (handleTouch_dbl_core baseState dblOnSprite t0 0 (by decide) (by decide)).2.2.2
    have hlook1 : (handleTouch baseState dblOnSprite t0 0).state.knownIps.lookup
        dblOnSprite.ip = some "miranda" := by
      rw [hknown1]
      decide
    have hthrl1 : (handleTouch baseState dblOnSprite t0 0).state.touchWakeThrottle.lookup
        "miranda" = some t0 := by
      rw [hthr1]
      show List.lookup "miranda" (mapSet [] "miranda" t0) = some t0
      simp [mapSet, List.lookup]
    have h2 := handleTouch_dbl_wake (handleTouch baseState dblOnSprite t0 0).state
      dblOnSprite (t0 + 29000) 0 "miranda" (by decide) (by decide) hlook1
    have hngt2 : ¬ 30000 < (t0 + 29000) -
        ((handleTouch baseState dblOnSprite t0 0).state.touchWakeThrottle.lookup
          "miranda").getD 0 := by
      rw [hthrl1]
      simp
    obtain ⟨hw2, hthr2⟩ := h2.2 hngt2
    have hknown2 : (handleTouch (handleTouch baseState dblOnSprite t0 0).state
        dblOnSprite (t0 + 29000) 0).state.knownIps =
        (handleTouch baseState dblOnSprite t0 0).state.knownIps :=
      (handleTouch_dbl_core (handleTouch baseState dblOnSprite t0 0).state
        dblOnSprite (t0 + 29000) 0 (by decide) (by decide)).2.2.2
    have hlook2 : (handleTouch (handleTouch baseState dblOnSprite t0 0).state
        dblOnSprite (t0 + 29000) 0).state.knownIps.lookup dblOnSprite.ip =
        some "miranda" := by
      rw [hknown2, hknown1]
      decide
    have hthrl2 : (handleTouch (handleTouch baseState dblOnSprite t0 0).state
        dblOnSprite (t0 + 29000) 0).state.touchWakeThrottle.lookup "miranda" =
        some t0 := by
      rw [hthr2, hthrl1]
    have hgt3 : 30000 < (t0 + 31000) -
        ((handleTouch (handleTouch baseState dblOnSprite t0 0).state
          dblOnSprite (t0 + 29000) 0).state.touchWakeThrottle.lookup
            "miranda").getD 0 := by
      rw [hthrl2]
      simp
    have h3 := handleTouch_dbl_wake (handleTouch (handleTouch baseState dblOnSprite t0 0).state
      dblOnSprite (t0 + 29000) 0).state dblOnSprite (t0 + 31000) 0 "miranda"
      (by decide) (by decide) hlook2
    obtain ⟨hw3, -⟩ := h3.1 hgt3
    exact ⟨hw1, hw2, hthr2, hw3⟩

/-- Witness for C4, instantiating the general wake law and the concrete
scenario at base time 40000 ms. -/
theorem c4_wake_throttle_witness :
    (dblOnSprite.onSprite = true ∧ isDoubleClickType dblOnSprite.ttype = true ∧
     baseState.knownIps.lookup dblOnSprite.ip = some "miranda" ∧ 30000 < 40000) ∧
    (handleTouch baseState dblOnSprite 40000 0).wake = some "miranda" ∧
    (handleTouch (handleTouch baseState dblOnSprite 40000 0).state
      dblOnSprite 69000 0).wake = none ∧
    (handleTouch (handleTouch (handleTouch baseState dblOnSprite 40000 0).state
      dblOnSprite 69000 0).state dblOnSprite 71000 0).wake = some "miranda" := by
  have h := c4_wake_throttle.2 40000 (by decide)
  exact ⟨⟨by decide, by decide, by decide, by decide⟩, h.1, h.2.1, h.2.2.2⟩

theorem scan_foldl_spec (x y : ℚ) (l : List Landmark) :
    ∀ acc : Option (Landmark × ℚ),
      (List.foldl (scanStep x y) acc l = none → l = [] ∧ acc = none) ∧
      (∀ b d2, List.foldl (scanStep x y) acc l = some (b, d2) →
        ((b ∈ l ∧ d2 = sqDist b.x b.y x y) ∨ acc = some (b, d2)) ∧
        (∀ o ∈ l, d2 ≤ sqDist o.x o.y x y) ∧
        (∀ a ad2, acc = some (a, ad2) → d2 ≤ ad2)) := by
  induction l with
  | nil =>
    intro acc
    refine ⟨fun h => ⟨rfl, by simpa using h⟩, ?_⟩
    intro b d2 h
    simp only [List.foldl_nil] at h
    refine ⟨Or.inr h, by simp, ?_⟩
    intro a ad2 ha
    rw [ha] at h
    have hp := Option.some.inj h
    exact le_of_eq (congrArg Prod.snd hp).symm
  | cons o rest ih =>
    intro acc
    obtain ⟨c, cd2, hacc', hcle, hcmem, hcacc⟩ :
        ∃ c cd2, scanStep x y acc o = some (c, cd2) ∧
          cd2 ≤ sqDist o.x o.y x y ∧
          ((c = o ∧ cd2 = sqDist o.x o.y x y) ∨ acc = some (c, cd2)) ∧
          (∀ a ad2, acc = some (a, ad2) → cd2 ≤ ad2) := by
      cases acc with
      | none =>
        refine ⟨o, sqDist o.x o.y x y, by simp [scanStep], le_refl _,
          Or.inl ⟨rfl, rfl⟩, ?_⟩
        intro a ad2 ha
        exact Option.noConfusion ha
      | some p =>
        obtain ⟨a0, ad0⟩ := p
        by_cases hlt : sqDist o.x o.y x y < ad0
        · refine ⟨o, sqDist o.x o.y x y, by simp [scanStep, hlt], le_refl _,
            Or.inl ⟨rfl, rfl⟩, ?_⟩
          intro a ad2 ha
          have hp := Option.some.inj ha
          have h2 : ad0 = ad2 := congrArg Prod.snd hp
          rw [← h2]
          exact le_of_lt hlt
        · refine ⟨a0, ad0, by simp [scanStep, hlt], le_of_not_lt hlt,
            Or.inr rfl, ?_⟩
          intro a ad2 ha
          have hp := Option.some.inj ha
          exact le_of_eq (congrArg Prod.snd hp)
    constructor
    · intro h
      simp only [List.foldl_cons] at h
      have hres := (ih (scanStep x y acc o)).1 h
      rw [hacc'] at hres
      exact Option.noConfusion hres.2
    · intro b d2 h
      simp only [List.foldl_cons] at h
      obtain ⟨hmem, hall, haccle⟩ := (ih (scanStep x y acc o)).2 b d2 h
      have hdc : d2 ≤ cd2 := haccle c cd2 hacc'
      refine ⟨?_, ?_, ?_⟩
      · rcases hmem with ⟨hbl, hde⟩ | hae
        · exact Or.inl ⟨List.mem_cons_of_mem _ hbl, hde⟩
        · rw [hacc'] at hae
          have hp := Option.some.inj hae
          have hc : c = b := congrArg Prod.fst hp
          have hcd : cd2 = d2 := congrArg Prod.snd hp
          subst hc
          subst hcd
          rcases hcmem with ⟨rfl, hce⟩ | hc2
          · exact Or.inl ⟨List.mem_cons_self _ _, hce⟩
          · exact Or.inr hc2
      · intro o2 ho2
        rcases List.mem_cons.mp ho2 with rfl | ho2
        · exact le_trans hdc hcle
        · exact hall o2 ho2
      · intro a ad2 ha
        exact le_trans hdc (hcacc a ad2 ha)

theorem scanNearest_min (x y : ℚ) (objects : List Landmark) (b : Landmark)
    (hb : b ∈ objects)
    (hmin : ∀ o ∈ objects, sqDist b.x b.y x y ≤ sqDist o.x o.y x y) :
    ∃ bb, scanNearest x y objects = some (bb, sqDist bb.x bb.y x y) ∧
      bb ∈ objects ∧ sqDist bb.x bb.y x y = sqDist b.x b.y x y := by
  cases hs : scanNearest x y objects with
  | none =>
    have hres := (scan_foldl_spec x y objects none).1 hs
    rw [hres.1] at hb
    simp at hb
  | some p =>
    obtain ⟨bb, bd2⟩ := p
    obtain ⟨hmem, hall, -⟩ := (scan_foldl_spec x y objects none).2 bb bd2 hs
    rcases hmem with ⟨hbbmem, hde⟩ | hcontra
    · subst hde
      exact ⟨bb, rfl, hbbmem, le_antisymm (hall b hb) (hmin bb hbbmem)⟩
    · exact Option.noConfusion hcontra

/-- C6: with no cache hit, the spatial resolver returns the description of
the nearest landmark (by Euclidean distance, compared as squared distances)
when that distance is below the 0.15 threshold, and the generic nothing
here description otherwise; in particular a nearest distance of 0.14
returns the landmark description and a distance of 0.16 returns the
generic one. -/
theorem c6_nearest_landmark_threshold :
    (∀ (cache : SpatialCache) (smap : SpatialMap) (room : String) (x y : ℚ)
      (objects : List Landmark) (b : Landmark),
      cacheLookup cache room (cellKey (gridCell x) (gridCell y)) = none →
      smap.lookup room = some objects →
      b ∈ objects →
      (∀ o ∈ objects, sqDist b.x b.y x y ≤ sqDist o.x o.y x y) →
      ((¬ sqDist b.x b.y x y < (3 / 20) ^ 2 →
        resolveSpatial cache smap room x y = GENERIC_EMPTY) ∧
       ((∀ o ∈ objects, o ≠ b → sqDist b.x b.y x y < sqDist o.x o.y x y) →
        sqDist b.x b.y x y < (3 / 20) ^ 2 →
        resolveSpatial cache smap room x y = b.description))) ∧
    resolveSpatial [] [("workshop", [⟨1/2, 1/2, "the cauldron"⟩])] "workshop"
      (16/25) (1/2) = "the cauldron" ∧
    resolveSpatial [] [("workshop", [⟨1/2, 1/2, "the cauldron"⟩])] "workshop"
      (33/50) (1/2) = GENERIC_EMPTY := by
  refine ⟨?_, ?_, ?_⟩
  · intro cache smap room x y objects b hcache hmap hb hmin
    obtain ⟨bb, hs, hbbmem, hbbeq⟩ := scanNearest_min x y objects b hb hmin
    constructor
    · intro hfar
      have hbbfar : ¬ sqDist bb.x bb.y x y < (3 / 20) ^ 2 := by
        rw [hbbeq]
        exact hfar
      simp [resolveSpatial, hcache, mapResolve, hmap, hs, hbbfar]
    · intro huniq hnear
      have hbb : bb = b := by
        by_contra hne
        have hlt := huniq bb hbbmem hne
        rw [hbbeq] at hlt
        exact lt_irrefl _ hlt
      subst hbb
      have hbbnear : sqDist bb.x bb.y x y < (3 / 20) ^ 2 := by
        rw [hbbeq]
        exact hnear
      simp [resolveSpatial, hcache, mapResolve, hmap, hs, hbbnear]
  · simp [resolveSpatial, cacheLookup, mapResolve, scanNearest, scanStep,
      List.lookup, sqDist]
    intro hcontra
    norm_num at hcontra
  · simp [resolveSpatial, cacheLookup, mapResolve, scanNearest, scanStep,
      List.lookup, sqDist]
    intro hcontra
    norm_num at hcontra

/-- Witness for the general part of C6: the one-landmark workshop map at
distance 0.14, where the hypotheses hold concretely. -/
theorem c6_nearest_landmark_threshold_witness :
    cacheLookup [] "workshop"
      (cellKey (gridCell (16/25)) (gridCell (1/2))) = none ∧
    (List.lookup "workshop"
      ([("workshop", [⟨1/2, 1/2, "the cauldron"⟩])] : SpatialMap) =
      some [⟨1/2, 1/2, "the cauldron"⟩]) ∧
    sqDist (1/2) (1/2) (16/25) (1/2) < (3 / 20) ^ 2 ∧
    resolveSpatial [] [("workshop", [⟨1/2, 1/2, "the cauldron"⟩])] "workshop"
      (16/25) (1/2) = "the cauldron" := by
  have hnear : sqDist (1/2) (1/2) (16/25) (1/2) < (3 / 20) ^ 2 := by
    norm_num [sqDist]
  have h := ((c6_nearest_landmark_threshold.1 [] [("workshop", [⟨1/2, 1/2, "the cauldron"⟩])]
    "workshop" (16/25) (1/2) [⟨1/2, 1/2, "the cauldron"⟩] ⟨1/2, 1/2, "the cauldron"⟩
    rfl rfl (by simp) (by
      intro o ho
      rw [List.mem_singleton] at ho
      subst ho
      exact le_refl _)).2 (by
      intro o ho hne
      rw [List.mem_singleton] at ho
      exact absurd ho hne) hnear)
  exact ⟨rfl, rfl, hnear, h⟩
